import Mathlib

/-!
Verification of `pyessential/logger.py` (PyEssential)

A shallow embedding of the `Logger` class from `src/pyessential/logger.py`,
together with the fragment of Python's standard `logging` library that the
class relies on: the process-wide registry of named loggers
(`logging.getLogger`), per-logger minimum levels, attached handlers
(a `TimedRotatingFileHandler` per sink plus optional `StreamHandler`s),
level filtering, and handler dispatch.

Modelling conventions:
* Machine state is a `World`: the global logger registry (a map from logger
  name to logger state), the contents of every log file (a map from file path
  to the list of records written to it), and the two console streams.
* A written record is kept structured (`Entry`: level, message, exc-info
  flag) rather than as the formatted text line; the formatter configuration
  (`fmt`/`datefmt`) is carried on each handler but the wall-clock dependent
  rendering of a line is not modelled.  "The file contains the message tagged
  at level L" is read off the structured entry.
* Ambient interpreter state consumed by `log_error` (the active exception
  context from `sys.exc_info()`, the wall clock, `traceback.format_exc()`)
  is passed as explicit inputs.
* `os.path.abspath` is modelled as the identity: resolution against the
  process working directory is environment state outside the model, and the
  claims depend only on equality of (already resolved) directory strings.
-/

namespace PyLogging

/-- Numeric value of `logging.DEBUG`. -/
def DEBUG : Nat := 10
/-- Numeric value of `logging.INFO`. -/
def INFO : Nat := 20
/-- Numeric value of `logging.WARNING`. -/
def WARNING : Nat := 30
/-- Numeric value of `logging.ERROR`. -/
def ERROR : Nat := 40
/-- Numeric value of `logging.CRITICAL`. -/
def CRITICAL : Nat := 50

/-- A `logging.Formatter(fmt=..., datefmt=...)`. -/
structure Formatter where
  fmt : String
  datefmt : String
deriving DecidableEq

/-- The console stream a `StreamHandler` writes to. -/
inductive ConsoleStream where
  | stdout
  | stderr
deriving DecidableEq

/-- A handler attached to a logger: either the `TimedRotatingFileHandler`
built in `Logger._build_logger` (its rotation configuration carried as
payload; an unset handler level, i.e. `NOTSET = 0`), or a `StreamHandler`
on which `setLevel(log_level)` was called. -/
inductive Handler where
  | file (path : String) (whenArg : String) (interval : Nat) (backupCount : Nat)
      (encoding : String) (formatter : Formatter)
  | stream (target : ConsoleStream) (level : Nat) (formatter : Formatter)
deriving DecidableEq

/-- The handler's own threshold: a record is emitted by the handler only if
its level is at least this (`Handler.handle` → `filter`).  The file handler
keeps the default `NOTSET = 0`; stream handlers get the logger's level. -/
def Handler.threshold : Handler → Nat
  | .file _ _ _ _ _ _ => 0
  | .stream _ lvl _ => lvl

/-- The mutable state of one named logger in the process-wide registry. -/
structure SinkState where
  level : Nat
  handlers : List Handler
  propagate : Bool
deriving DecidableEq

/-- A logger that has never been configured: level `NOTSET`, no handlers,
propagation enabled (the `logging.getLogger` default). -/
def freshSink : SinkState := ⟨0, [], true⟩

/-- One record written by a handler.  `excInfo` records whether a formatted
stack trace is attached to the emitted line. -/
structure Entry where
  level : Nat
  msg : String
  excInfo : Bool
deriving DecidableEq

/-- Global state: the `logging` registry of named loggers, every log file's
contents, and the two console streams. -/
structure World where
  registry : String → SinkState
  files : String → List Entry
  consoleOut : List Entry
  consoleErr : List Entry

/-- A world with an untouched registry and empty files and streams. -/
def emptyWorld : World :=
  ⟨fun _ => freshSink, fun _ => [], [], []⟩

/-- Point update of the registry (assignment through `logging.getLogger`'s
shared reference). -/
def setReg (name : String) (s : SinkState) (reg : String → SinkState) :
    String → SinkState :=
  fun n => if n = name then s else reg n

/-- Append one record to the file at `path`. -/
def appendFile (path : String) (e : Entry) (files : String → List Entry) :
    String → List Entry :=
  fun p => if p = path then files p ++ [e] else files p

/-- Model of `Handler.handle`: the file handler appends to its file; a stream handler
appends to its console stream. -/
def emitHandler (h : Handler) (e : Entry) (w : World) : World :=
  match h with
  | .file path _ _ _ _ _ => { w with files := appendFile path e w.files }
  | .stream .stdout _ _ => { w with consoleOut := w.consoleOut ++ [e] }
  | .stream .stderr _ _ => { w with consoleErr := w.consoleErr ++ [e] }

/-- Model of `Logger.callHandlers`: offer the record to each attached handler in
order; a handler emits it only when the record's level reaches the handler's
own threshold.  (Propagation to ancestor loggers is omitted: every logger
the router logs through sets `propagate = False` before any record is
submitted, so the ancestor walk never runs in the modelled executions.) -/
def callHandlers (hs : List Handler) (e : Entry) (w : World) : World :=
  hs.foldl (fun w h => if h.threshold ≤ e.level then emitHandler h e w else w) w

/-- Model of `Logger.getEffectiveLevel`: a logger with an explicitly set level uses
it; an unconfigured logger (`NOTSET`) defers up the (here unconfigured)
ancestor chain to the root logger's `WARNING` default. -/
def effectiveLevel (s : SinkState) : Nat :=
  if s.level = 0 then WARNING else s.level

/-- Model of `logging.Logger.debug/info/...` on the registry logger named `name`:
drop the record unless its level reaches the logger's effective level
(`isEnabledFor`), otherwise hand it to the attached handlers. -/
def sinkLog (name : String) (lvl : Nat) (msg : String) (excInfo : Bool)
    (w : World) : World :=
  let sink := w.registry name
  if effectiveLevel sink ≤ lvl then callHandlers sink.handlers ⟨lvl, msg, excInfo⟩ w
  else w

end PyLogging

namespace PyEssential

open PyLogging

/-- Model of `Logger._LEVEL_MAP.get level` — the dictionary lookup. -/
def LEVEL_MAP : String → Option Nat
  | "debug" => some DEBUG
  | "info" => some INFO
  | "warning" => some WARNING
  | "error" => some ERROR
  | "critical" => some CRITICAL
  | _ => none

/-- ASCII case folding of one character, as `str.lower` performs on the
level names that occur here (the full Unicode case mapping is not
modelled). -/
def lowerChar (c : Char) : Char :=
  if 'A' ≤ c && c ≤ 'Z' then Char.ofNat (c.toNat + 32) else c

/-- Python's `level.lower()`. -/
def pyLower (s : String) : String :=
  ⟨s.data.map lowerChar⟩

/-- Model of `cls._LEVEL_MAP.get(level.lower(), logging.DEBUG)`. -/
def levelOf (level : String) : Nat :=
  (LEVEL_MAP (pyLower level)).getD DEBUG

/-- Model of `os.path.join(dir, file)` for an absolute posix `dir`. -/
def joinPath (dir file : String) : String :=
  dir ++ "/" ++ file

/-- Model of `os.path.split(p)[1]`: the final component after the last `/`
separator (the whole string when no separator occurs). -/
def basename (p : String) : String :=
  ⟨(p.data.reverse.takeWhile (fun c => c ≠ '/')).reverse⟩

/-- The `Logger` instance: its stored path attributes plus the registry
names of the three loggers it routes through.  In Python the instance holds
references to the shared registry objects; here the names index the
registry, which captures the same aliasing. -/
structure Logger where
  log_dir : String
  log_name : String
  stdin_path : String
  stdout_path : String
  error_path : String
  stdinName : String
  stdoutName : String
  errorName : String
deriving DecidableEq

/-- Model of `Logger._build_logger`: fetch the registry logger called `name`, set its
level, clear any previously attached handlers, disable propagation, attach a
fresh `TimedRotatingFileHandler`, and, when console output is enabled,
additionally a `StreamHandler` on stdout or stderr with the same level. -/
def buildLogger (name filepath level whenArg : String) (interval backupCount : Nat)
    (formatter : Formatter) (encoding : String)
    (enable_console console_to_stderr : Bool) (w : World) : World :=
  let log_level := levelOf level
  let logger0 := w.registry name
  let logger1 : SinkState :=
    { logger0 with level := log_level, handlers := [], propagate := false }
  let fh := Handler.file filepath whenArg interval backupCount encoding formatter
  let logger2 := { logger1 with handlers := logger1.handlers ++ [fh] }
  let logger3 :=
    if enable_console then
      let target := if console_to_stderr then ConsoleStream.stderr else ConsoleStream.stdout
      { logger2 with handlers :=
          logger2.handlers ++ [Handler.stream target log_level formatter] }
    else logger2
  { w with registry := setReg name logger3 w.registry }

/-- Model of `Logger.__init__`: compute the three file paths under the (resolved)
directory, then build the three sinks — ingress (`.stdin`, never mirrored to
console), output (`.stdout`, mirrored to the stdout stream when enabled) and
fault (`.error`, mirrored to the stderr stream when enabled).  Directory
creation (`os.makedirs`) has no observable effect in this model. -/
def Logger.init (log_dir log_name level whenArg : String)
    (interval backupCount : Nat) (enable_console : Bool)
    (fmt datefmt encoding : String) (w : World) : Logger × World :=
  let dir := log_dir
  let stdin_path := joinPath dir (log_name ++ "_stdin.log")
  let stdout_path := joinPath dir (log_name ++ "_stdout.log")
  let error_path := joinPath dir (log_name ++ "_error.log")
  let formatter : Formatter := ⟨fmt, datefmt⟩
  let w1 := buildLogger (log_name ++ ".stdin") stdin_path level whenArg
    interval backupCount formatter encoding false false w
  let w2 := buildLogger (log_name ++ ".stdout") stdout_path level whenArg
    interval backupCount formatter encoding enable_console false w1
  let w3 := buildLogger (log_name ++ ".error") error_path level whenArg
    interval backupCount formatter encoding enable_console true w2
  (⟨dir, log_name, stdin_path, stdout_path, error_path,
    log_name ++ ".stdin", log_name ++ ".stdout", log_name ++ ".error"⟩, w3)

/-- Model of `Logger.debug`: route to the stdout logger at DEBUG. -/
def Logger.debug (lg : Logger) (msg : String) (excInfo : Bool) (w : World) : World :=
  sinkLog lg.stdoutName DEBUG msg excInfo w

/-- Model of `Logger.info`: route to the stdout logger at INFO. -/
def Logger.info (lg : Logger) (msg : String) (excInfo : Bool) (w : World) : World :=
  sinkLog lg.stdoutName INFO msg excInfo w

/-- Model of `Logger.warning`: route to the stdout logger at WARNING. -/
def Logger.warning (lg : Logger) (msg : String) (excInfo : Bool) (w : World) : World :=
  sinkLog lg.stdoutName WARNING msg excInfo w

/-- Model of `Logger.error`: route to the error logger at ERROR. -/
def Logger.error (lg : Logger) (msg : String) (excInfo : Bool) (w : World) : World :=
  sinkLog lg.errorName ERROR msg excInfo w

/-- Model of `Logger.critical`: route to the error logger at CRITICAL. -/
def Logger.critical (lg : Logger) (msg : String) (excInfo : Bool) (w : World) : World :=
  sinkLog lg.errorName CRITICAL msg excInfo w

/-- Model of `Logger.exception`: route to the error logger at ERROR with
`exc_info=True` hard-coded — the caller's `exc_info` argument is ignored. -/
def Logger.exception (lg : Logger) (msg : String) (excInfo : Bool) (w : World) : World :=
  sinkLog lg.errorName ERROR msg true w

/-- Model of `Logger.stdin`: record an ingress event on the stdin logger at INFO. -/
def Logger.stdin (lg : Logger) (msg : String) (excInfo : Bool) (w : World) : World :=
  sinkLog lg.stdinName INFO msg excInfo w

/-- One frame of a Python traceback: `f_code.co_filename` (a full path),
the line number in that frame, and the function name. -/
structure Frame where
  filename : String
  lineno : Nat
  funcName : String
deriving DecidableEq

/-- The traceback object returned by `sys.exc_info()` when an exception is
being handled.  It is a non-empty chain of frames: `head` is the outermost
frame — the frame whose `try` block the exception escaped into, i.e. where
it is being caught — and the chain grows inward; the final frame is the one
in which the `raise` happened. -/
structure Traceback where
  head : Frame
  rest : List Frame
deriving DecidableEq

/-- The innermost frame of the traceback: the frame in which the exception
was actually raised. -/
def Traceback.raiseFrame (tb : Traceback) : Frame :=
  tb.rest.getLastD tb.head

/-- A Python exception object as `log_error` observes it: its runtime class
name (`err.__class__.__name__`) and its string form (`str(err)`). -/
structure PyException where
  className : String
  message : String
deriving DecidableEq

/-- The `data` dictionary built (and returned) by `Logger.log_error`. -/
structure ErrorReport where
  exception_type : String
  exception_message : String
  filename : String
  lineno : Int
  function : String
  timestamp : String
  traceback : String
deriving DecidableEq

/-- Python's `repr` of a string, as it appears inside `str(dict)` (the
quote-escaping applied when the string itself contains a quote is not
modelled). -/
def pyRepr (s : String) : String :=
  "\x27" ++ s ++ "\x27"

/-- Model of `str(data)` for the report dictionary: the text the `%s`-style formatter
interpolates into the logged line when the dict is passed as the message. -/
def ErrorReport.pyStr (r : ErrorReport) : String :=
  "\x7b" ++ pyRepr "exception_type" ++ ": " ++ pyRepr r.exception_type ++
  ", " ++ pyRepr "exception_message" ++ ": " ++ pyRepr r.exception_message ++
  ", " ++ pyRepr "filename" ++ ": " ++ pyRepr r.filename ++
  ", " ++ pyRepr "lineno" ++ ": " ++ toString r.lineno ++
  ", " ++ pyRepr "function" ++ ": " ++ pyRepr r.function ++
  ", " ++ pyRepr "timestamp" ++ ": " ++ pyRepr r.timestamp ++
  ", " ++ pyRepr "traceback" ++ ": " ++ pyRepr r.traceback ++ "\x7d"

/-- Model of `Logger.log_error(err)`.  Ambient interpreter state is explicit input:
`excTb` is the traceback of `sys.exc_info()` (`none` when called outside an
`except` block), `now` the formatted wall clock reading
(`datetime.now().strftime("%Y-%m-%d %H:%M:%S")`), and `tbText` the result of
`traceback.format_exc()`.  The location fields are taken from the traceback
object itself: `exc_tb.tb_frame.f_code.co_filename` (basename),
`exc_tb.tb_lineno` and `traceback.extract_tb(exc_tb, 1)[0][2]` all describe
the traceback's first (outermost) frame.  The report is logged through
`self.error(data, exc_info=True)` and returned. -/
def Logger.log_error (lg : Logger) (err : PyException) (excTb : Option Traceback)
    (now tbText : String) (w : World) : ErrorReport × World :=
  let loc : String × Int × String :=
    match excTb with
    | none => ("<unknown>", (-1 : Int), "<unknown>")
    | some tb => (basename tb.head.filename, (tb.head.lineno : Int), tb.head.funcName)
  let data : ErrorReport :=
    { exception_type := err.className
      exception_message := err.message
      filename := loc.1
      lineno := loc.2.1
      function := loc.2.2
      timestamp := now
      traceback := tbText }
  (data, lg.error data.pyStr true w)

/-- The outcome of one flush or close attempt on one handler during
`Logger.close`; the `failed` flag records whether the underlying call
raised (and was swallowed by the surrounding `try`/`except`). -/
inductive CloseAction where
  | flushAttempt (h : Handler) (failed : Bool)
  | closeAttempt (h : Handler) (failed : Bool)
deriving DecidableEq

/-- Which handlers' `flush`/`close` raise: environment-determined I/O
failure, supplied as an oracle. -/
structure FailureOracle where
  flushFails : Handler → Bool
  closeFails : Handler → Bool

/-- The inner `for h in list(lg.handlers)` loop of `Logger.close`: iterate
over a snapshot of the handler list; for each handler attempt `flush` and
then `close` — each wrapped in `try ... except Exception: pass`, so the
recorded outcome never alters control flow — then `lg.removeHandler(h)`
(removal of the first occurrence from the live list). -/
def closeHandlers (o : FailureOracle) : List Handler → List Handler →
    List Handler × List CloseAction
  | [], live => (live, [])
  | h :: rest, live =>
      let a1 := CloseAction.flushAttempt h (o.flushFails h)
      let a2 := CloseAction.closeAttempt h (o.closeFails h)
      let (live', acts) := closeHandlers o rest (live.erase h)
      (live', a1 :: a2 :: acts)

/-- Close one registry logger: run the handler loop against a snapshot of
its handler list, keeping whatever survives as the live list. -/
def closeSink (o : FailureOracle) (s : SinkState) : SinkState × List CloseAction :=
  let (live, acts) := closeHandlers o s.handlers s.handlers
  ({ s with handlers := live }, acts)

/-- The outer loop of `Logger.close` over the three registry loggers. -/
def closeLoggers (o : FailureOracle) : List String → World →
    World × List CloseAction
  | [], w => (w, [])
  | n :: rest, w =>
      let (s, acts) := closeSink o (w.registry n)
      let (w', acts') :=
        closeLoggers o rest { w with registry := setReg n s w.registry }
      (w', acts ++ acts')

/-- Model of `Logger.close`: flush, close and detach every handler of the stdin,
stdout and error loggers, in that order, swallowing per-handler failures. -/
def Logger.close (o : FailureOracle) (lg : Logger) (w : World) :
    World × List CloseAction :=
  closeLoggers o [lg.stdinName, lg.stdoutName, lg.errorName] w

/-- Model of `Logger.__enter__`: returns the instance itself. -/
def Logger.enter (lg : Logger) : Logger := lg

/-- Model of `Logger.__exit__(exc_type, exc_value, traceback)`: calls `close`
whatever the exception arguments are, and returns `None` (falsy), so an
in-flight exception keeps propagating after the handlers are released. -/
def Logger.exit (lg : Logger) (exc : Option PyException) (o : FailureOracle)
    (w : World) : World :=
  (Logger.close o lg w).1

/-- A `with Logger(...) as log: body` block: `__enter__` binds the router,
the body runs to either a normal result or an in-flight exception, and
`__exit__` runs on both paths; since `__exit__` returns `None`, the
exception (if any) continues to propagate afterwards. -/
def scopedRun (lg : Logger) (o : FailureOracle)
    (body : Logger → World → World × Option PyException) (w : World) :
    World × Option PyException :=
  let bound := lg.enter
  let (w', exc) := body bound w
  (bound.exit exc o w', exc)

/-- Holds when `s` occurs as a contiguous substring of `t`. -/
def strContains (t s : String) : Prop :=
  ∃ a b : String, t = a ++ s ++ b

/-- The sequence of attempts the `close` loop makes on a handler list: one
flush attempt followed by one close attempt per handler, in list order,
with the environment-determined outcome of each recorded. -/
def closeTraceOf (o : FailureOracle) : List Handler → List CloseAction
  | [] => []
  | h :: rest =>
      CloseAction.flushAttempt h (o.flushFails h) ::
      CloseAction.closeAttempt h (o.closeFails h) :: closeTraceOf o rest

end PyEssential

namespace PyEssential

open PyLogging

/-! ## Helper lemmas: strings, registry keys and file paths -/

lemma string_data_inj {a b : String} (h : a.data = b.data) : a = b := by
  cases a; cases b; exact congrArg String.mk h

lemma string_data_append (a b : String) : (a ++ b).data = a.data ++ b.data :=
  String.data_append a b

lemma append_ne_of_ne_left {a b : String} (s : String) (h : a ≠ b) :
    a ++ s ≠ b ++ s := by
  intro heq
  apply h
  apply string_data_inj
  have hd : a.data ++ s.data = b.data ++ s.data := by
    rw [← string_data_append, ← string_data_append, heq]
  exact List.append_cancel_right hd

lemma append_ne_of_last_ne {s t : String} (a b : String)
    (hs : s.data ≠ []) (ht : t.data ≠ [])
    (h : s.data.getLast? ≠ t.data.getLast?) : a ++ s ≠ b ++ t := by
  intro heq
  apply h
  have hd : a.data ++ s.data = b.data ++ t.data := by
    rw [← string_data_append, ← string_data_append, heq]
  calc s.data.getLast? = (a.data ++ s.data).getLast? :=
        (List.getLast?_append_of_ne_nil a.data hs).symm
    _ = (b.data ++ t.data).getLast? := by rw [hd]
    _ = t.data.getLast? := List.getLast?_append_of_ne_nil b.data ht

lemma stdin_key_ne_stdout_key (n m : String) : n ++ ".stdin" ≠ m ++ ".stdout" :=
  append_ne_of_last_ne n m (by decide) (by decide) (by decide)

lemma stdin_key_ne_error_key (n m : String) : n ++ ".stdin" ≠ m ++ ".error" :=
  append_ne_of_last_ne n m (by decide) (by decide) (by decide)

lemma stdout_key_ne_error_key (n m : String) : n ++ ".stdout" ≠ m ++ ".error" :=
  append_ne_of_last_ne n m (by decide) (by decide) (by decide)

lemma joinPath_ne_of_suffix_ne (d n : String) {s₁ s₂ : String}
    (h : s₁.data ≠ s₂.data) : joinPath d (n ++ s₁) ≠ joinPath d (n ++ s₂) := by
  intro heq
  apply h
  have hd : (d ++ "/").data ++ (n.data ++ s₁.data)
      = (d ++ "/").data ++ (n.data ++ s₂.data) := by
    have h1 : (d ++ "/") ++ (n ++ s₁) = (d ++ "/") ++ (n ++ s₂) := heq
    have := congrArg String.data h1
    simpa [string_data_append] using this
  exact List.append_cancel_left (List.append_cancel_left hd)

lemma joinPath_ne_of_dir_ne {d₁ d₂ : String} (f : String) (h : d₁ ≠ d₂) :
    joinPath d₁ f ≠ joinPath d₂ f := by
  intro heq
  apply h
  apply string_data_inj
  have hd : (d₁.data ++ "/".data) ++ f.data = (d₂.data ++ "/".data) ++ f.data := by
    have := congrArg String.data heq
    simpa [joinPath, string_data_append, List.append_assoc] using this
  have h2 := List.append_cancel_right hd
  exact List.append_cancel_right h2

lemma stdin_path_ne_stdout_path (d n : String) :
    joinPath d (n ++ "_stdin.log") ≠ joinPath d (n ++ "_stdout.log") :=
  joinPath_ne_of_suffix_ne d n (by decide)

lemma stdin_path_ne_error_path (d n : String) :
    joinPath d (n ++ "_stdin.log") ≠ joinPath d (n ++ "_error.log") :=
  joinPath_ne_of_suffix_ne d n (by decide)

lemma stdout_path_ne_error_path (d n : String) :
    joinPath d (n ++ "_stdout.log") ≠ joinPath d (n ++ "_error.log") :=
  joinPath_ne_of_suffix_ne d n (by decide)

/-! ## Helper lemmas: levels -/

lemma levelOf_pos (level : String) : 0 < levelOf level := by
  unfold levelOf LEVEL_MAP
  split <;> simp [DEBUG, INFO, WARNING, ERROR, CRITICAL]

lemma effectiveLevel_of_pos {s : SinkState} (h : 0 < s.level) :
    effectiveLevel s = s.level := by
  simp [effectiveLevel, Nat.pos_iff_ne_zero.mp h]

/-! ## Helper lemmas: construction -/

lemma init_fst (d n level wh : String) (i b : Nat) (ec : Bool)
    (f df e : String) (w : World) :
    (Logger.init d n level wh i b ec f df e w).1 =
      ⟨d, n, joinPath d (n ++ "_stdin.log"), joinPath d (n ++ "_stdout.log"),
       joinPath d (n ++ "_error.log"),
       n ++ ".stdin", n ++ ".stdout", n ++ ".error"⟩ := rfl

lemma init_registry_stdin (d n level wh : String) (i b : Nat) (ec : Bool)
    (f df e : String) (w : World) :
    (Logger.init d n level wh i b ec f df e w).2.registry (n ++ ".stdin") =
      ⟨levelOf level,
       [Handler.file (joinPath d (n ++ "_stdin.log")) wh i b e ⟨f, df⟩],
       false⟩ := by
  simp [Logger.init, buildLogger, setReg,
    stdin_key_ne_stdout_key n n, stdin_key_ne_error_key n n]

lemma init_registry_stdout (d n level wh : String) (i b : Nat) (ec : Bool)
    (f df e : String) (w : World) :
    (Logger.init d n level wh i b ec f df e w).2.registry (n ++ ".stdout") =
      ⟨levelOf level,
       if ec then
         [Handler.file (joinPath d (n ++ "_stdout.log")) wh i b e ⟨f, df⟩,
          Handler.stream .stdout (levelOf level) ⟨f, df⟩]
       else [Handler.file (joinPath d (n ++ "_stdout.log")) wh i b e ⟨f, df⟩],
       false⟩ := by
  cases ec <;>
    simp [Logger.init, buildLogger, setReg, stdout_key_ne_error_key n n]

lemma init_registry_error (d n level wh : String) (i b : Nat) (ec : Bool)
    (f df e : String) (w : World) :
    (Logger.init d n level wh i b ec f df e w).2.registry (n ++ ".error") =
      ⟨levelOf level,
       if ec then
         [Handler.file (joinPath d (n ++ "_error.log")) wh i b e ⟨f, df⟩,
          Handler.stream .stderr (levelOf level) ⟨f, df⟩]
       else [Handler.file (joinPath d (n ++ "_error.log")) wh i b e ⟨f, df⟩],
       false⟩ := by
  cases ec <;> simp [Logger.init, buildLogger, setReg]

lemma init_registry_other (d n level wh : String) (i b : Nat) (ec : Bool)
    (f df e : String) (w : World) {x : String}
    (h₁ : x ≠ n ++ ".stdin") (h₂ : x ≠ n ++ ".stdout") (h₃ : x ≠ n ++ ".error") :
    (Logger.init d n level wh i b ec f df e w).2.registry x = w.registry x := by
  simp [Logger.init, buildLogger, setReg, h₁, h₂, h₃]

lemma init_files (d n level wh : String) (i b : Nat) (ec : Bool)
    (f df e : String) (w : World) :
    (Logger.init d n level wh i b ec f df e w).2.files = w.files := by
  cases ec <;> simp [Logger.init, buildLogger]

lemma init_consoleOut (d n level wh : String) (i b : Nat) (ec : Bool)
    (f df e : String) (w : World) :
    (Logger.init d n level wh i b ec f df e w).2.consoleOut = w.consoleOut := by
  cases ec <;> simp [Logger.init, buildLogger]

lemma init_consoleErr (d n level wh : String) (i b : Nat) (ec : Bool)
    (f df e : String) (w : World) :
    (Logger.init d n level wh i b ec f df e w).2.consoleErr = w.consoleErr := by
  cases ec <;> simp [Logger.init, buildLogger]

/-! ## Helper lemmas: record submission -/

lemma callHandlers_nil (e : Entry) (w : World) : callHandlers [] e w = w := rfl

lemma callHandlers_cons (h : Handler) (hs : List Handler) (e : Entry) (w : World) :
    callHandlers (h :: hs) e w =
      callHandlers hs e (if h.threshold ≤ e.level then emitHandler h e w else w) := rfl

lemma emitHandler_registry (h : Handler) (e : Entry) (w : World) :
    (emitHandler h e w).registry = w.registry := by
  cases h with
  | file => rfl
  | stream t => cases t <;> rfl

lemma emitHandler_files_stream (t : ConsoleStream) (lvl : Nat) (fm : Formatter)
    (e : Entry) (w : World) :
    (emitHandler (Handler.stream t lvl fm) e w).files = w.files := by
  cases t <;> rfl

lemma callHandlers_registry (e : Entry) :
    ∀ (hs : List Handler) (w : World), (callHandlers hs e w).registry = w.registry
  | [], _ => rfl
  | h :: hs, w => by
      rw [callHandlers_cons, callHandlers_registry e hs]
      split
      · rw [emitHandler_registry]
      · rfl

lemma callHandlers_files_fileOnly (p wh : String) (i b : Nat) (enc : String)
    (fm : Formatter) (e : Entry) (w : World) :
    (callHandlers [Handler.file p wh i b enc fm] e w).files =
      appendFile p e w.files := by
  simp [callHandlers, Handler.threshold, emitHandler]

lemma callHandlers_files_fileStream (p wh : String) (i b : Nat) (enc : String)
    (fm : Formatter) (t : ConsoleStream) (lvl : Nat) (fm' : Formatter)
    (e : Entry) (w : World) :
    (callHandlers [Handler.file p wh i b enc fm, Handler.stream t lvl fm'] e w).files =
      appendFile p e w.files := by
  rw [callHandlers_cons, callHandlers_cons, callHandlers_nil]
  simp only [Handler.threshold, Nat.zero_le, if_pos]
  split
  · rw [emitHandler_files_stream]; rfl
  · rfl

lemma appendFile_same (p : String) (e : Entry) (files : String → List Entry) :
    appendFile p e files p = files p ++ [e] := by
  simp [appendFile]

lemma appendFile_other {p q : String} (e : Entry) (files : String → List Entry)
    (h : q ≠ p) : appendFile p e files q = files q := by
  simp [appendFile, h]

lemma callHandlers_files_sinkShape (ec : Bool) (p wh : String) (i b : Nat)
    (enc : String) (fm : Formatter) (t : ConsoleStream) (lvl : Nat)
    (e : Entry) (w : World) :
    (callHandlers
        (if ec then [Handler.file p wh i b enc fm, Handler.stream t lvl fm]
         else [Handler.file p wh i b enc fm]) e w).files =
      appendFile p e w.files := by
  cases ec
  · exact callHandlers_files_fileOnly p wh i b enc fm e w
  · exact callHandlers_files_fileStream p wh i b enc fm t lvl fm e w

lemma effectiveLevel_mk (L : Nat) (hs : List Handler) (pr : Bool) (h : 0 < L) :
    effectiveLevel ⟨L, hs, pr⟩ = L := by
  simp [effectiveLevel, Nat.pos_iff_ne_zero.mp h]

lemma sinkLog_files_stdout (d n level wh : String) (i b : Nat) (ec : Bool)
    (f df e : String) (w : World) (lvl : Nat) (msg : String) (ei : Bool) :
    (sinkLog (n ++ ".stdout") lvl msg ei
        (Logger.init d n level wh i b ec f df e w).2).files =
      if levelOf level ≤ lvl then
        appendFile (joinPath d (n ++ "_stdout.log")) ⟨lvl, msg, ei⟩
          ((Logger.init d n level wh i b ec f df e w).2.files)
      else (Logger.init d n level wh i b ec f df e w).2.files := by
  simp only [sinkLog]
  rw [init_registry_stdout, effectiveLevel_mk _ _ _ (levelOf_pos level)]
  split
  · exact callHandlers_files_sinkShape ec _ wh i b e ⟨f, df⟩ .stdout (levelOf level) _ _
  · rfl

lemma sinkLog_files_error (d n level wh : String) (i b : Nat) (ec : Bool)
    (f df e : String) (w : World) (lvl : Nat) (msg : String) (ei : Bool) :
    (sinkLog (n ++ ".error") lvl msg ei
        (Logger.init d n level wh i b ec f df e w).2).files =
      if levelOf level ≤ lvl then
        appendFile (joinPath d (n ++ "_error.log")) ⟨lvl, msg, ei⟩
          ((Logger.init d n level wh i b ec f df e w).2.files)
      else (Logger.init d n level wh i b ec f df e w).2.files := by
  simp only [sinkLog]
  rw [init_registry_error, effectiveLevel_mk _ _ _ (levelOf_pos level)]
  split
  · exact callHandlers_files_sinkShape ec _ wh i b e ⟨f, df⟩ .stderr (levelOf level) _ _
  · rfl

lemma sinkLog_files_stdin (d n level wh : String) (i b : Nat) (ec : Bool)
    (f df e : String) (w : World) (lvl : Nat) (msg : String) (ei : Bool) :
    (sinkLog (n ++ ".stdin") lvl msg ei
        (Logger.init d n level wh i b ec f df e w).2).files =
      if levelOf level ≤ lvl then
        appendFile (joinPath d (n ++ "_stdin.log")) ⟨lvl, msg, ei⟩
          ((Logger.init d n level wh i b ec f df e w).2.files)
      else (Logger.init d n level wh i b ec f df e w).2.files := by
  simp only [sinkLog]
  rw [init_registry_stdin, effectiveLevel_mk _ _ _ (levelOf_pos level)]
  split
  · exact callHandlers_files_fileOnly _ wh i b e ⟨f, df⟩ _ _
  · rfl

lemma sinkLog_registry (name : String) (lvl : Nat) (msg : String) (ei : Bool)
    (w : World) : (sinkLog name lvl msg ei w).registry = w.registry := by
  simp only [sinkLog]
  split
  · rw [callHandlers_registry]
  · rfl

/-! ## Helper lemmas: close -/

lemma closeHandlers_fst (o : FailureOracle) :
    ∀ (c live : List Handler),
      (closeHandlers o c live).1 = c.foldl (fun acc h => acc.erase h) live
  | [], _ => rfl
  | h :: rest, live => by
      simp [closeHandlers, closeHandlers_fst o rest]

lemma foldl_erase_self :
    ∀ l : List Handler, l.foldl (fun acc h => acc.erase h) l = []
  | [] => rfl
  | h :: rest => by
      have he : (h :: rest).erase h = rest := List.erase_cons_head h rest
      calc (h :: rest).foldl (fun acc h => acc.erase h) (h :: rest)
          = rest.foldl (fun acc h => acc.erase h) ((h :: rest).erase h) := rfl
        _ = rest.foldl (fun acc h => acc.erase h) rest := by rw [he]
        _ = [] := foldl_erase_self rest

lemma closeSink_fst (o : FailureOracle) (s : SinkState) :
    (closeSink o s).1 = { s with handlers := [] } := by
  simp [closeSink, closeHandlers_fst, foldl_erase_self]

lemma closeHandlers_snd (o : FailureOracle) :
    ∀ (c live : List Handler), (closeHandlers o c live).2 = closeTraceOf o c
  | [], _ => rfl
  | h :: rest, live => by
      simp [closeHandlers, closeTraceOf, closeHandlers_snd o rest]

lemma closeSink_eq (o : FailureOracle) (s : SinkState) :
    closeSink o s = ({ s with handlers := [] }, closeTraceOf o s.handlers) := by
  have h1 := closeSink_fst o s
  have h2 : (closeSink o s).2 = closeTraceOf o s.handlers := by
    simp [closeSink, closeHandlers_snd]
  calc closeSink o s = ((closeSink o s).1, (closeSink o s).2) := rfl
    _ = ({ s with handlers := [] }, closeTraceOf o s.handlers) := by rw [h1, h2]

lemma closeLoggers_nil (o : FailureOracle) (w : World) :
    closeLoggers o [] w = (w, []) := rfl

lemma closeLoggers_cons (o : FailureOracle) (m : String) (rest : List String)
    (w : World) :
    closeLoggers o (m :: rest) w =
      ((closeLoggers o rest
          { w with registry := setReg m (closeSink o (w.registry m)).1 w.registry }).1,
       (closeSink o (w.registry m)).2 ++
        (closeLoggers o rest
          { w with registry := setReg m (closeSink o (w.registry m)).1 w.registry }).2) := rfl

lemma closeLoggers_three (o : FailureOracle) (k₁ k₂ k₃ : String) (w : World)
    (h₁₂ : k₁ ≠ k₂) (h₁₃ : k₁ ≠ k₃) (h₂₃ : k₂ ≠ k₃) :
    closeLoggers o [k₁, k₂, k₃] w =
      ({ w with registry := (setReg k₃ ({ (w.registry k₃) with handlers := [] })
            (setReg k₂ ({ (w.registry k₂) with handlers := [] })
              (setReg k₁ ({ (w.registry k₁) with handlers := [] }) w.registry))) },
       closeTraceOf o (w.registry k₁).handlers ++
       closeTraceOf o (w.registry k₂).handlers ++
       closeTraceOf o (w.registry k₃).handlers) := by
  rw [closeLoggers_cons, closeLoggers_cons, closeLoggers_cons, closeLoggers_nil]
  simp [closeSink_eq, setReg, h₁₂.symm, h₁₃.symm, h₂₃.symm, List.append_assoc]

lemma closeHandlers_trace (o : FailureOracle) :
    ∀ (c live : List Handler) (h : Handler), h ∈ c →
      CloseAction.flushAttempt h (o.flushFails h) ∈ (closeHandlers o c live).2 ∧
      CloseAction.closeAttempt h (o.closeFails h) ∈ (closeHandlers o c live).2
  | [], _, h, hm => absurd hm (List.not_mem_nil h)
  | h' :: rest, live, h, hm => by
      simp only [closeHandlers]
      rcases List.mem_cons.mp hm with heq | hrest
      · subst heq
        constructor
        · exact List.mem_cons_self _ _
        · exact List.mem_cons_of_mem _ (List.mem_cons_self _ _)
      · have := closeHandlers_trace o rest (live.erase h') h hrest
        exact ⟨List.mem_cons_of_mem _ (List.mem_cons_of_mem _ this.1),
               List.mem_cons_of_mem _ (List.mem_cons_of_mem _ this.2)⟩

lemma closeSink_trace (o : FailureOracle) (s : SinkState) (h : Handler)
    (hm : h ∈ s.handlers) :
    CloseAction.flushAttempt h (o.flushFails h) ∈ (closeSink o s).2 ∧
    CloseAction.closeAttempt h (o.closeFails h) ∈ (closeSink o s).2 := by
  simpa [closeSink] using closeHandlers_trace o s.handlers s.handlers h hm

lemma closeLoggers_not_mem (o : FailureOracle) :
    ∀ (names : List String) (w : World) (n : String), n ∉ names →
      ((closeLoggers o names w).1).registry n = w.registry n
  | [], _, _, _ => rfl
  | m :: rest, w, n, hn => by
      have hnm : n ≠ m := fun h => hn (h ▸ List.mem_cons_self m rest)
      have hnr : n ∉ rest := fun h => hn (List.mem_cons_of_mem m h)
      simp only [closeLoggers]
      rw [closeLoggers_not_mem o rest _ n hnr]
      simp [setReg, hnm]

lemma closeLoggers_mem (o : FailureOracle) :
    ∀ (names : List String) (w : World) (n : String), n ∈ names →
      (((closeLoggers o names w).1).registry n).handlers = []
  | [], _, n, hn => absurd hn (List.not_mem_nil n)
  | m :: rest, w, n, hn => by
      by_cases hr : n ∈ rest
      · simpa only [closeLoggers] using closeLoggers_mem o rest _ n hr
      · have hnm : n = m := by
          rcases List.mem_cons.mp hn with h | h
          · exact h
          · exact absurd h hr
        subst hnm
        simp only [closeLoggers]
        rw [closeLoggers_not_mem o rest _ n hr]
        simp [setReg, closeSink_fst]

lemma closeLoggers_files (o : FailureOracle) :
    ∀ (names : List String) (w : World), ((closeLoggers o names w).1).files = w.files
  | [], _ => rfl
  | m :: rest, w => by
      simp only [closeLoggers]
      rw [closeLoggers_files o rest]

lemma closeLoggers_oracle (o o' : FailureOracle) :
    ∀ (names : List String) (w : World),
      (closeLoggers o names w).1 = (closeLoggers o' names w).1
  | [], _ => rfl
  | m :: rest, w => by
      simp only [closeLoggers]
      rw [closeSink_fst, ← closeSink_fst o']
      exact closeLoggers_oracle o o' rest _

lemma setReg_self (n : String) (reg : String → SinkState) :
    setReg n (reg n) reg = reg := by
  funext x
  by_cases hx : x = n <;> simp [setReg, hx]

lemma closeLoggers_id_of_empty (o : FailureOracle) :
    ∀ (names : List String) (w : World),
      (∀ n ∈ names, (w.registry n).handlers = []) →
      (closeLoggers o names w).1 = w
  | [], _, _ => rfl
  | m :: rest, w, hemp => by
      simp only [closeLoggers]
      have hm : (w.registry m).handlers = [] := hemp m (List.mem_cons_self m rest)
      have hs : (closeSink o (w.registry m)).1 = w.registry m := by
        rw [closeSink_fst]
        cases h : w.registry m
        simp only [h] at hm
        simp [hm]
      rw [hs, setReg_self]
      exact closeLoggers_id_of_empty o rest w (fun n hn => hemp n (List.mem_cons_of_mem m hn))

/-! ## Helper lemmas: the stringified error report -/

lemma strContains_refl (s : String) : strContains s s := by
  refine ⟨"", "", ?_⟩
  apply string_data_inj
  simp [string_data_append]

lemma pyStr_contains_type (r : ErrorReport) :
    strContains r.pyStr (pyRepr "exception_type" ++ ": " ++ pyRepr r.exception_type) := by
  refine ⟨"\x7b",
    ", " ++ pyRepr "exception_message" ++ ": " ++ pyRepr r.exception_message ++
    ", " ++ pyRepr "filename" ++ ": " ++ pyRepr r.filename ++
    ", " ++ pyRepr "lineno" ++ ": " ++ toString r.lineno ++
    ", " ++ pyRepr "function" ++ ": " ++ pyRepr r.function ++
    ", " ++ pyRepr "timestamp" ++ ": " ++ pyRepr r.timestamp ++
    ", " ++ pyRepr "traceback" ++ ": " ++ pyRepr r.traceback ++ "\x7d", ?_⟩
  apply string_data_inj
  simp [ErrorReport.pyStr, string_data_append, List.append_assoc]

/-! ## Claim C1 -/

/-- Claim C1, counterexample.  The claim says `info` appends the message to the
output file unconditionally; but the constructor's minimum severity level is
applied to the output sink too, so with a router constructed at level
`"error"` a subsequent `info` call writes nothing: the output file stays
empty instead of gaining the INFO entry. -/
theorem c1_counterexample :
    ((Logger.init "/logs" "app" "error" "midnight" 1 7 false "F" "D" "utf-8"
          emptyWorld).1.info "The process is running." false
        (Logger.init "/logs" "app" "error" "midnight" 1 7 false "F" "D" "utf-8"
          emptyWorld).2).files
      ((Logger.init "/logs" "app" "error" "midnight" 1 7 false "F" "D" "utf-8"
          emptyWorld).1.stdout_path) = [] ∧
    ([] : List Entry) ≠ [⟨INFO, "The process is running.", false⟩] := by
  constructor
  · have h := sinkLog_files_stdout "/logs" "app" "error" "midnight" 1 7 false
      "F" "D" "utf-8" emptyWorld INFO "The process is running." false
    show (sinkLog ("app" ++ ".stdout") INFO "The process is running." false
        (Logger.init "/logs" "app" "error" "midnight" 1 7 false "F" "D" "utf-8"
          emptyWorld).2).files (joinPath "/logs" ("app" ++ "_stdout.log")) = []
    rw [h, if_neg (by decide), init_files]
    rfl
  · decide

/-- Claim C1 (amended).  For a freshly constructed router, each leveled
operation touches a single sink's file, and appends its record there exactly
when the record's severity is at least the configured minimum level:
`debug`/`info`/`warning` append (at their own severity) only to the output
file and never change the fault or ingress file; `error`/`critical` append
only to the fault file and never change the output or ingress file; `stdin`
(ingress) appends at INFO severity only to the ingress file and never
changes the output or fault file. -/
theorem c1_theorem (d n level wh : String) (i b : Nat) (ec : Bool)
    (f df e : String) (w : World) (msg : String) (x : Bool) :
    let lg := (Logger.init d n level wh i b ec f df e w).1
    let w₂ := (Logger.init d n level wh i b ec f df e w).2
    ((lg.debug msg x w₂).files lg.stdout_path =
        w₂.files lg.stdout_path ++ (if levelOf level ≤ DEBUG then [⟨DEBUG, msg, x⟩] else []) ∧
      (lg.debug msg x w₂).files lg.error_path = w₂.files lg.error_path ∧
      (lg.debug msg x w₂).files lg.stdin_path = w₂.files lg.stdin_path) ∧
    ((lg.info msg x w₂).files lg.stdout_path =
        w₂.files lg.stdout_path ++ (if levelOf level ≤ INFO then [⟨INFO, msg, x⟩] else []) ∧
      (lg.info msg x w₂).files lg.error_path = w₂.files lg.error_path ∧
      (lg.info msg x w₂).files lg.stdin_path = w₂.files lg.stdin_path) ∧
    ((lg.warning msg x w₂).files lg.stdout_path =
        w₂.files lg.stdout_path ++ (if levelOf level ≤ WARNING then [⟨WARNING, msg, x⟩] else []) ∧
      (lg.warning msg x w₂).files lg.error_path = w₂.files lg.error_path ∧
      (lg.warning msg x w₂).files lg.stdin_path = w₂.files lg.stdin_path) ∧
    ((lg.error msg x w₂).files lg.error_path =
        w₂.files lg.error_path ++ (if levelOf level ≤ ERROR then [⟨ERROR, msg, x⟩] else []) ∧
      (lg.error msg x w₂).files lg.stdout_path = w₂.files lg.stdout_path ∧
      (lg.error msg x w₂).files lg.stdin_path = w₂.files lg.stdin_path) ∧
    ((lg.critical msg x w₂).files lg.error_path =
        w₂.files lg.error_path ++ (if levelOf level ≤ CRITICAL then [⟨CRITICAL, msg, x⟩] else []) ∧
      (lg.critical msg x w₂).files lg.stdout_path = w₂.files lg.stdout_path ∧
      (lg.critical msg x w₂).files lg.stdin_path = w₂.files lg.stdin_path) ∧
    ((lg.stdin msg x w₂).files lg.stdin_path =
        w₂.files lg.stdin_path ++ (if levelOf level ≤ INFO then [⟨INFO, msg, x⟩] else []) ∧
      (lg.stdin msg x w₂).files lg.stdout_path = w₂.files lg.stdout_path ∧
      (lg.stdin msg x w₂).files lg.error_path = w₂.files lg.error_path) := by
  simp only [Logger.debug, Logger.info, Logger.warning, Logger.error,
    Logger.critical, Logger.stdin, init_fst]
  rw [sinkLog_files_stdout, sinkLog_files_stdout, sinkLog_files_stdout,
    sinkLog_files_error, sinkLog_files_error, sinkLog_files_stdin]
  refine ⟨⟨?_, ?_, ?_⟩, ⟨?_, ?_, ?_⟩, ⟨?_, ?_, ?_⟩, ⟨?_, ?_, ?_⟩,
    ⟨?_, ?_, ?_⟩, ⟨?_, ?_, ?_⟩⟩ <;>
  · split <;>
      simp [appendFile, stdin_path_ne_stdout_path d n, stdin_path_ne_error_path d n,
        stdout_path_ne_error_path d n, (stdin_path_ne_stdout_path d n).symm,
        (stdin_path_ne_error_path d n).symm, (stdout_path_ne_error_path d n).symm]

/-! ## Claim C4 -/

/-- Claim C4.  `close()` attempts to flush and then close every attached
handler (file and console) on all three sinks, in order; the recorded
failure outcomes never influence the resulting state (so an individual
handler's flush/close failure is swallowed and the loop continues, and no
failure propagates to the caller); after `close` each of the three sinks
has zero attached handlers; and calling `close` again on the closed state
changes nothing. -/
theorem c4_theorem (d n level wh : String) (i b : Nat) (ec : Bool)
    (f df e : String) (w₀ w : World) (o o' : FailureOracle) :
    let lg := (Logger.init d n level wh i b ec f df e w₀).1
    (Logger.close o lg w).2 =
      closeTraceOf o (w.registry lg.stdinName).handlers ++
      closeTraceOf o (w.registry lg.stdoutName).handlers ++
      closeTraceOf o (w.registry lg.errorName).handlers ∧
    (Logger.close o lg w).1 = (Logger.close o' lg w).1 ∧
    (((Logger.close o lg w).1).registry lg.stdinName).handlers = [] ∧
    (((Logger.close o lg w).1).registry lg.stdoutName).handlers = [] ∧
    (((Logger.close o lg w).1).registry lg.errorName).handlers = [] ∧
    (Logger.close o lg ((Logger.close o lg w).1)).1 = (Logger.close o lg w).1 := by
  refine ⟨?_, ?_, ?_, ?_, ?_, ?_⟩
  · show (closeLoggers o [n ++ ".stdin", n ++ ".stdout", n ++ ".error"] w).2 = _
    rw [closeLoggers_three o _ _ _ w (stdin_key_ne_stdout_key n n)
      (stdin_key_ne_error_key n n) (stdout_key_ne_error_key n n)]
    rfl
  · exact closeLoggers_oracle o o' _ w
  · exact closeLoggers_mem o _ w _ (by simp)
  · exact closeLoggers_mem o _ w _ (by simp)
  · exact closeLoggers_mem o _ w _ (by simp)
  · exact closeLoggers_id_of_empty o _ _
      (fun nm hm => closeLoggers_mem o _ w nm hm)

/-! ## Claim C5 -/

/-- Claim C5.  With console mirroring enabled at construction, the output sink
carries its file handler plus exactly one stream handler writing to the
standard output stream, the fault sink carries its file handler plus
exactly one stream handler writing to the standard error stream, and the
ingress sink carries only its file handler; with mirroring disabled, each
of the three sinks carries exactly its one file handler. -/
theorem c5_theorem (d n level wh : String) (i b : Nat) (f df e : String)
    (w : World) :
    (Logger.init d n level wh i b true f df e w).2.registry
        ((Logger.init d n level wh i b true f df e w).1.stdoutName) =
      ⟨levelOf level,
       [Handler.file (joinPath d (n ++ "_stdout.log")) wh i b e ⟨f, df⟩,
        Handler.stream .stdout (levelOf level) ⟨f, df⟩], false⟩ ∧
    (Logger.init d n level wh i b true f df e w).2.registry
        ((Logger.init d n level wh i b true f df e w).1.errorName) =
      ⟨levelOf level,
       [Handler.file (joinPath d (n ++ "_error.log")) wh i b e ⟨f, df⟩,
        Handler.stream .stderr (levelOf level) ⟨f, df⟩], false⟩ ∧
    (Logger.init d n level wh i b true f df e w).2.registry
        ((Logger.init d n level wh i b true f df e w).1.stdinName) =
      ⟨levelOf level,
       [Handler.file (joinPath d (n ++ "_stdin.log")) wh i b e ⟨f, df⟩], false⟩ ∧
    (Logger.init d n level wh i b false f df e w).2.registry
        ((Logger.init d n level wh i b false f df e w).1.stdoutName) =
      ⟨levelOf level,
       [Handler.file (joinPath d (n ++ "_stdout.log")) wh i b e ⟨f, df⟩], false⟩ ∧
    (Logger.init d n level wh i b false f df e w).2.registry
        ((Logger.init d n level wh i b false f df e w).1.errorName) =
      ⟨levelOf level,
       [Handler.file (joinPath d (n ++ "_error.log")) wh i b e ⟨f, df⟩], false⟩ ∧
    (Logger.init d n level wh i b false f df e w).2.registry
        ((Logger.init d n level wh i b false f df e w).1.stdinName) =
      ⟨levelOf level,
       [Handler.file (joinPath d (n ++ "_stdin.log")) wh i b e ⟨f, df⟩], false⟩ := by
  refine ⟨?_, ?_, ?_, ?_, ?_, ?_⟩ <;> simp only [init_fst] <;>
    first
      | (rw [init_registry_stdout]; try simp)
      | (rw [init_registry_error]; try simp)
      | (rw [init_registry_stdin]; try simp)

/-! ## Claim C6 -/

/-- Claim C6.  `exception(message, ...)` routes the entry to the fault sink at
ERROR level with stack-trace attachment forced: the call equals an `error`
call with `exc_info=True` whatever exc-info flag the caller passed (in
particular passing `false` changes nothing), and on a fresh router the fault
file gains an ERROR entry with the trace attached (when the configured
minimum level admits ERROR) while the output and ingress files never
change. -/
theorem c6_theorem (d n level wh : String) (i b : Nat) (ec : Bool)
    (f df e : String) (w : World) (msg : String) (x : Bool) :
    let lg := (Logger.init d n level wh i b ec f df e w).1
    let w₂ := (Logger.init d n level wh i b ec f df e w).2
    lg.exception msg x w₂ = lg.error msg true w₂ ∧
    lg.exception msg x w₂ = lg.exception msg true w₂ ∧
    (lg.exception msg x w₂).files lg.error_path =
      w₂.files lg.error_path ++
        (if levelOf level ≤ ERROR then [⟨ERROR, msg, true⟩] else []) ∧
    (lg.exception msg x w₂).files lg.stdout_path = w₂.files lg.stdout_path ∧
    (lg.exception msg x w₂).files lg.stdin_path = w₂.files lg.stdin_path := by
  refine ⟨rfl, rfl, ?_, ?_, ?_⟩ <;>
    simp only [Logger.exception, init_fst] <;> rw [sinkLog_files_error] <;>
    · split <;>
        simp [appendFile, (stdin_path_ne_error_path d n).symm,
          (stdout_path_ne_error_path d n).symm, stdin_path_ne_error_path d n,
          stdout_path_ne_error_path d n]

/-! ## Claim C7 -/

/-- Claim C7.  Entering the router's scope returns the router object itself;
exiting the scope calls `close` unconditionally — whether the body finished
normally or with an in-flight exception, the final state is the closed one
and the exception (if any) continues to propagate — hence after any scoped
use each of the three sinks has zero attached handlers. -/
theorem c7_theorem (lg : Logger) (o : FailureOracle)
    (body : Logger → World → World × Option PyException) (w : World) :
    lg.enter = lg ∧
    (∀ (exc : Option PyException) (w' : World),
        lg.exit exc o w' = (Logger.close o lg w').1) ∧
    scopedRun lg o body w =
      ((Logger.close o lg (body lg w).1).1, (body lg w).2) ∧
    (((scopedRun lg o body w).1).registry lg.stdinName).handlers = [] ∧
    (((scopedRun lg o body w).1).registry lg.stdoutName).handlers = [] ∧
    (((scopedRun lg o body w).1).registry lg.errorName).handlers = [] := by
  refine ⟨rfl, fun exc w' => rfl, rfl, ?_, ?_, ?_⟩ <;>
    exact closeLoggers_mem o _ _ _ (by simp [Logger.enter])

/-! ## Claim C8 -/

/-- Claim C8.  Construction clears whatever handlers were previously attached
to each of the three named sinks before attaching the new ones: starting
from an arbitrary prior world (including one left by an earlier
construction with the same name), each named sink afterwards carries exactly
the newly attached handlers — one file handler, plus one console handler on
the output and fault sinks exactly when mirroring is enabled — so repeated
construction never accumulates duplicates, as the explicit re-construction
conjunct records. -/
theorem c8_theorem (d n level wh : String) (i b : Nat) (ec : Bool)
    (f df e : String) (w : World) :
    (Logger.init d n level wh i b ec f df e w).2.registry (n ++ ".stdin") =
      ⟨levelOf level,
       [Handler.file (joinPath d (n ++ "_stdin.log")) wh i b e ⟨f, df⟩], false⟩ ∧
    (Logger.init d n level wh i b ec f df e w).2.registry (n ++ ".stdout") =
      ⟨levelOf level,
       if ec then
         [Handler.file (joinPath d (n ++ "_stdout.log")) wh i b e ⟨f, df⟩,
          Handler.stream .stdout (levelOf level) ⟨f, df⟩]
       else [Handler.file (joinPath d (n ++ "_stdout.log")) wh i b e ⟨f, df⟩],
       false⟩ ∧
    (Logger.init d n level wh i b ec f df e w).2.registry (n ++ ".error") =
      ⟨levelOf level,
       if ec then
         [Handler.file (joinPath d (n ++ "_error.log")) wh i b e ⟨f, df⟩,
          Handler.stream .stderr (levelOf level) ⟨f, df⟩]
       else [Handler.file (joinPath d (n ++ "_error.log")) wh i b e ⟨f, df⟩],
       false⟩ ∧
    (Logger.init d n level wh i b ec f df e
        (Logger.init d n level wh i b ec f df e w).2).2.registry (n ++ ".stdout") =
      (Logger.init d n level wh i b ec f df e w).2.registry (n ++ ".stdout") := by
  refine ⟨init_registry_stdin d n level wh i b ec f df e w,
    init_registry_stdout d n level wh i b ec f df e w,
    init_registry_error d n level wh i b ec f df e w, ?_⟩
  rw [init_registry_stdout, init_registry_stdout]

/-! ## Claim C10 -/

/-- Claim C10.  The constructor's minimum severity level is applied uniformly
to all three sinks, the ingress sink included; since ingress records are
emitted at INFO severity, a router constructed with a minimum level above
INFO drops every subsequent `stdin` (ingress) call entirely — the world,
and in particular the ingress file, is unchanged. -/
theorem c10_theorem (d n level wh : String) (i b : Nat) (ec : Bool)
    (f df e : String) (w : World) (msg : String) (x : Bool)
    (hlvl : INFO < levelOf level) :
    let lg := (Logger.init d n level wh i b ec f df e w).1
    let w₂ := (Logger.init d n level wh i b ec f df e w).2
    (w₂.registry lg.stdinName).level = levelOf level ∧
    (w₂.registry lg.stdoutName).level = levelOf level ∧
    (w₂.registry lg.errorName).level = levelOf level ∧
    lg.stdin msg x w₂ = w₂ := by
  refine ⟨?_, ?_, ?_, ?_⟩ <;> simp only [Logger.stdin, init_fst]
  · rw [init_registry_stdin]
  · rw [init_registry_stdout]
  · rw [init_registry_error]
  · simp only [sinkLog]
    rw [init_registry_stdin, effectiveLevel_mk _ _ _ (levelOf_pos level),
      if_neg (Nat.not_le.mpr hlvl)]

/-- Claim C10, witness.  A concrete instance: a router built at level
`"warning"` (30 > INFO) records the level uniformly and drops an ingress
message without touching the world. -/
theorem c10_witness :
    INFO < levelOf "warning" ∧
    (let lg := (Logger.init "/logs" "app" "warning" "midnight" 1 7 false "F"
        "D" "utf-8" emptyWorld).1
     let w₂ := (Logger.init "/logs" "app" "warning" "midnight" 1 7 false "F"
        "D" "utf-8" emptyWorld).2
     (w₂.registry lg.stdinName).level = levelOf "warning" ∧
     (w₂.registry lg.stdoutName).level = levelOf "warning" ∧
     (w₂.registry lg.errorName).level = levelOf "warning" ∧
     lg.stdin "User input received." false w₂ = w₂) :=
  ⟨by decide, c10_theorem "/logs" "app" "warning" "midnight" 1 7 false "F" "D"
    "utf-8" emptyWorld "User input received." false (by decide)⟩

/-! ## Claim C9 -/

/-- Claim C9.  Sinks live in a process-wide registry keyed only by base name:
a second `Logger` with the same base name — even under a different
directory — owns the very same registry keys, so after its construction the
first instance's `info` call writes through the second instance's handler
into the second instance's output file and leaves the first instance's own
file untouched; closing either instance leaves the sinks of both with zero
handlers; and constructing a `Logger` under a different base name leaves
the first name's sinks entirely unchanged. -/
theorem c9_theorem (d₁ d₂ d₃ n n₂ level₁ level₂ level₃ wh : String)
    (i b : Nat) (ec : Bool) (f df e : String) (w : World)
    (msg : String) (x : Bool) (o : FailureOracle)
    (hdir : d₁ ≠ d₂) (hname : n₂ ≠ n) :
    let p₁ := Logger.init d₁ n level₁ wh i b ec f df e w
    let p₂ := Logger.init d₂ n level₂ wh i b ec f df e p₁.2
    let p₃ := Logger.init d₃ n₂ level₃ wh i b ec f df e p₂.2
    (p₁.1.stdinName = p₂.1.stdinName ∧ p₁.1.stdoutName = p₂.1.stdoutName ∧
      p₁.1.errorName = p₂.1.errorName) ∧
    p₁.1.stdout_path ≠ p₂.1.stdout_path ∧
    ((p₁.1.info msg x p₂.2).files p₂.1.stdout_path =
        p₂.2.files p₂.1.stdout_path ++
          (if levelOf level₂ ≤ INFO then [⟨INFO, msg, x⟩] else []) ∧
      (p₁.1.info msg x p₂.2).files p₁.1.stdout_path =
        p₂.2.files p₁.1.stdout_path) ∧
    ((((Logger.close o p₁.1 p₂.2).1).registry p₂.1.stdinName).handlers = [] ∧
     (((Logger.close o p₁.1 p₂.2).1).registry p₂.1.stdoutName).handlers = [] ∧
     (((Logger.close o p₁.1 p₂.2).1).registry p₂.1.errorName).handlers = [] ∧
     (((Logger.close o p₂.1 p₂.2).1).registry p₁.1.stdinName).handlers = [] ∧
     (((Logger.close o p₂.1 p₂.2).1).registry p₁.1.stdoutName).handlers = [] ∧
     (((Logger.close o p₂.1 p₂.2).1).registry p₁.1.errorName).handlers = []) ∧
    (p₃.2.registry p₁.1.stdinName = p₂.2.registry p₁.1.stdinName ∧
     p₃.2.registry p₁.1.stdoutName = p₂.2.registry p₁.1.stdoutName ∧
     p₃.2.registry p₁.1.errorName = p₂.2.registry p₁.1.errorName) := by
  refine ⟨⟨rfl, rfl, rfl⟩, ?_, ⟨?_, ?_⟩, ⟨?_, ?_, ?_, ?_, ?_, ?_⟩, ⟨?_, ?_, ?_⟩⟩
  · exact joinPath_ne_of_dir_ne _ hdir
  · simp only [Logger.info, init_fst]
    rw [sinkLog_files_stdout]
    split <;> simp [appendFile]
  · simp only [Logger.info, init_fst]
    rw [sinkLog_files_stdout]
    split <;> simp [appendFile, joinPath_ne_of_dir_ne (n ++ "_stdout.log") hdir]
  · exact closeLoggers_mem o _ _ _ (by simp [init_fst])
  · exact closeLoggers_mem o _ _ _ (by simp [init_fst])
  · exact closeLoggers_mem o _ _ _ (by simp [init_fst])
  · exact closeLoggers_mem o _ _ _ (by simp [init_fst])
  · exact closeLoggers_mem o _ _ _ (by simp [init_fst])
  · exact closeLoggers_mem o _ _ _ (by simp [init_fst])
  · exact init_registry_other d₃ n₂ level₃ wh i b ec f df e _
      (append_ne_of_ne_left ".stdin" hname.symm).symm.symm
      (stdin_key_ne_stdout_key n n₂) (stdin_key_ne_error_key n n₂)
  · exact init_registry_other d₃ n₂ level₃ wh i b ec f df e _
      (stdin_key_ne_stdout_key n₂ n).symm
      (append_ne_of_ne_left ".stdout" hname.symm)
      (stdout_key_ne_error_key n n₂)
  · exact init_registry_other d₃ n₂ level₃ wh i b ec f df e _
      (stdin_key_ne_error_key n₂ n).symm
      (stdout_key_ne_error_key n₂ n).symm
      (append_ne_of_ne_left ".error" hname.symm)

/-- Claim C9, witness.  A concrete run: base name `"app"` constructed under
`"/a"` and re-constructed under `"/b"`, then a third router under base name
`"zed"`. -/
theorem c9_witness :
    ("/a" : String) ≠ "/b" ∧ ("zed" : String) ≠ "app" ∧
    (let p₁ := Logger.init "/a" "app" "debug" "midnight" 1 7 false "F" "D"
        "utf-8" emptyWorld
     let p₂ := Logger.init "/b" "app" "info" "midnight" 1 7 false "F" "D"
        "utf-8" p₁.2
     let p₃ := Logger.init "/c" "zed" "debug" "midnight" 1 7 false "F" "D"
        "utf-8" p₂.2
     (p₁.1.stdinName = p₂.1.stdinName ∧ p₁.1.stdoutName = p₂.1.stdoutName ∧
       p₁.1.errorName = p₂.1.errorName) ∧
     p₁.1.stdout_path ≠ p₂.1.stdout_path ∧
     ((p₁.1.info "m" false p₂.2).files p₂.1.stdout_path =
         p₂.2.files p₂.1.stdout_path ++
           (if levelOf "info" ≤ INFO then [⟨INFO, "m", false⟩] else []) ∧
       (p₁.1.info "m" false p₂.2).files p₁.1.stdout_path =
         p₂.2.files p₁.1.stdout_path) ∧
     ((((Logger.close ⟨fun _ => false, fun _ => false⟩ p₁.1 p₂.2).1).registry
          p₂.1.stdinName).handlers = [] ∧
      (((Logger.close ⟨fun _ => false, fun _ => false⟩ p₁.1 p₂.2).1).registry
          p₂.1.stdoutName).handlers = [] ∧
      (((Logger.close ⟨fun _ => false, fun _ => false⟩ p₁.1 p₂.2).1).registry
          p₂.1.errorName).handlers = [] ∧
      (((Logger.close ⟨fun _ => false, fun _ => false⟩ p₂.1 p₂.2).1).registry
          p₁.1.stdinName).handlers = [] ∧
      (((Logger.close ⟨fun _ => false, fun _ => false⟩ p₂.1 p₂.2).1).registry
          p₁.1.stdoutName).handlers = [] ∧
      (((Logger.close ⟨fun _ => false, fun _ => false⟩ p₂.1 p₂.2).1).registry
          p₁.1.errorName).handlers = []) ∧
     (p₃.2.registry p₁.1.stdinName = p₂.2.registry p₁.1.stdinName ∧
      p₃.2.registry p₁.1.stdoutName = p₂.2.registry p₁.1.stdoutName ∧
      p₃.2.registry p₁.1.errorName = p₂.2.registry p₁.1.errorName)) :=
  ⟨by decide, by decide,
    c9_theorem "/a" "/b" "/c" "app" "zed" "debug" "info" "debug" "midnight"
      1 7 false "F" "D" "utf-8" emptyWorld "m" false
      ⟨fun _ => false, fun _ => false⟩ (by decide) (by decide)⟩

/-! ## Claim C2 -/

/-- Claim C2, counterexample.  The claim says the fault file always gains an
entry with the stringified report; but `log_error` writes through
`self.error`, which the error sink's configured minimum level filters: for
a router constructed at level `"critical"`, `log_error` still returns the
report but the fault file stays empty. -/
theorem c2_counterexample :
    (((Logger.init "/logs" "app" "critical" "midnight" 1 7 false "F" "D" "utf-8"
          emptyWorld).1.log_error ⟨"KeyError", "boom"⟩ none "2026-01-01 00:00:00" "tb"
        (Logger.init "/logs" "app" "critical" "midnight" 1 7 false "F" "D" "utf-8"
          emptyWorld).2).2).files
      ((Logger.init "/logs" "app" "critical" "midnight" 1 7 false "F" "D" "utf-8"
          emptyWorld).1.error_path) = [] := by
  simp only [Logger.log_error, Logger.error, init_fst]
  rw [sinkLog_files_error, if_neg (by decide), init_files]
  rfl

/-- Claim C2 (amended).  For every exception `err` passed to `log_error` on a
freshly constructed router, the returned report's `exception_type` equals
the exception's runtime class name and its `exception_message` equals (and
hence contains) `str(err)`; the report is submitted to the fault sink as an
ERROR entry with stack trace attached, and — provided the configured
minimum severity is at most ERROR (always so at the default DEBUG level) —
the fault file gains that entry, whose message is the stringified report
and contains the `exception_type` value. -/
theorem c2_theorem (d n level wh : String) (i b : Nat) (ec : Bool)
    (f df e : String) (w : World) (err : PyException) (tb : Option Traceback)
    (now tbt : String) :
    let lg := (Logger.init d n level wh i b ec f df e w).1
    let w₂ := (Logger.init d n level wh i b ec f df e w).2
    let res := lg.log_error err tb now tbt w₂
    res.1.exception_type = err.className ∧
    res.1.exception_message = err.message ∧
    strContains res.1.exception_message err.message ∧
    strContains res.1.pyStr (pyRepr "exception_type" ++ ": " ++ pyRepr err.className) ∧
    res.2.files lg.error_path =
      w₂.files lg.error_path ++
        (if levelOf level ≤ ERROR then [⟨ERROR, res.1.pyStr, true⟩] else []) := by
  refine ⟨rfl, rfl, strContains_refl err.message, pyStr_contains_type _, ?_⟩
  show (Logger.error _ _ true _).files (joinPath d (n ++ "_error.log")) = _
  simp only [Logger.error, init_fst]
  rw [sinkLog_files_error]
  split
  · rw [appendFile_same]
    rfl
  · simp

/-! ## Claim C3 -/

/-- Claim C3, counterexample.  The claim says the report's location fields
name the site where the exception was *raised*.  In the code they come from
the traceback's first entry (`exc_tb.tb_frame` / `exc_tb.tb_lineno` /
`extract_tb(exc_tb, 1)[0]`), which is the *outermost* frame — where the
exception was caught — not the innermost frame where it was raised.  With a
two-frame traceback (raised in `inner` at `/app/inner.py:99`, caught in
`outer` at `/app/outer.py:10`) every location field disagrees with the
raise site. -/
theorem c3_counterexample :
    let tb : Traceback := ⟨⟨"/app/outer.py", 10, "outer"⟩,
                           [⟨"/app/inner.py", 99, "inner"⟩]⟩
    let res := (Logger.init "/logs" "app" "debug" "midnight" 1 7 false "F" "D"
        "utf-8" emptyWorld).1.log_error ⟨"ValueError", "bad"⟩ (some tb) "T" "TB"
      (Logger.init "/logs" "app" "debug" "midnight" 1 7 false "F" "D" "utf-8"
        emptyWorld).2
    res.1.filename = "outer.py" ∧
    basename tb.raiseFrame.filename = "inner.py" ∧
    res.1.filename ≠ basename tb.raiseFrame.filename ∧
    res.1.lineno = (10 : Int) ∧ tb.raiseFrame.lineno = 99 ∧
    res.1.lineno ≠ (tb.raiseFrame.lineno : Int) ∧
    res.1.function = "outer" ∧ tb.raiseFrame.funcName = "inner" ∧
    res.1.function ≠ tb.raiseFrame.funcName := by
  decide

/-- Claim C3 (amended).  The location fields of the report built by
`log_error` are fully determined by the currently active exception context,
taken from the traceback's *outermost* frame (the frame in which the
exception is being handled), not the frame where it was raised: with an
active context, the source file field is the basename of that outermost
frame's file, the line and function fields are that frame's; with no active
context, `log_error` does not fail and records the sentinels `"<unknown>"`
and `-1`. -/
theorem c3_theorem (lg : Logger) (err : PyException) (now tbt : String)
    (w : World) (tb : Traceback) :
    ((lg.log_error err none now tbt w).1.filename = "<unknown>" ∧
     (lg.log_error err none now tbt w).1.lineno = -1 ∧
     (lg.log_error err none now tbt w).1.function = "<unknown>") ∧
    ((lg.log_error err (some tb) now tbt w).1.filename = basename tb.head.filename ∧
     (lg.log_error err (some tb) now tbt w).1.lineno = (tb.head.lineno : Int) ∧
     (lg.log_error err (some tb) now tbt w).1.function = tb.head.funcName) :=
  ⟨⟨rfl, rfl, rfl⟩, ⟨rfl, rfl, rfl⟩⟩

end PyEssential
